import Mathlib

/-!
# Verification of the Gemini relay handler (`src/api/gemini.js`)

The repository consists of a single serverless request handler that relays a
client query to the Google generative-language API and reshapes the provider's
answer into `{text, sources}`.  This file gives a shallow embedding of that
handler and proves the specified properties about it.

## Embedding conventions

* JSON values are modelled by the inductive `JsonValue`.  JavaScript's
  `undefined` is modelled by `Option JsonValue` being `none` (an absent object
  field, a failed optional chain, a missing element).  Numbers are modelled by
  `Int`; no claim depends on fractional or NaN behaviour.
* JavaScript truthiness is `JsonValue.truthy` / `truthyOpt` (with `undefined`
  falsy).
* The outbound `fetch` and the provider's `Response` object are external
  collaborators; their behaviour is an input of the handler model
  (`FetchOutcome`).  `Response.ok` means status in `[200, 299]`.
  `jsonBody = .error msg` models `response.json()` rejecting with message
  `msg` (a body that is not parsable as JSON).
* A JavaScript statement that throws outside the handler's `try` block is
  modelled by the `HandlerResult.thrown` outcome; throws inside the `try`
  block are routed to the `catch` branch, exactly as in the source.
* The second component of the handler's result records the outbound payload
  when (and only when) the provider call was issued.
-/

/-- A JSON value, as produced by `response.json()` or held in `req.body`. -/
inductive JsonValue where
  | null
  | bool (b : Bool)
  | num (n : Int)
  | str (s : String)
  | arr (elems : List JsonValue)
  | obj (fields : List (String × JsonValue))

/-- JavaScript truthiness of a defined value.  (`0` and `""` are falsy;
arrays and objects are always truthy.) -/
def JsonValue.truthy : JsonValue → Bool
  | .null => false
  | .bool b => b
  | .num n => n != 0
  | .str s => s ≠ ""
  | .arr _ => true
  | .obj _ => true

/-- Truthiness of a possibly-`undefined` value (`undefined` is falsy). -/
def truthyOpt (v : Option JsonValue) : Bool :=
  (v.map JsonValue.truthy).getD false

/-- Property access `v.k` on a defined value: yields the field of an object,
`undefined` (`none`) otherwise.  (Property access on JavaScript primitives
returns `undefined` for the names used by this handler.) -/
def JsonValue.getField : JsonValue → String → Option JsonValue
  | .obj fields, k => (fields.find? (fun f => f.1 = k)).map (fun f => f.2)
  | _, _ => none

/-- Index access `v[i]`: an array element, a one-character string for string
indexing, `undefined` otherwise. -/
def JsonValue.getIndex : JsonValue → Nat → Option JsonValue
  | .arr elems, i => elems.get? i
  | .str s, i => (s.toList.get? i).map (fun c => .str (String.singleton c))
  | _, _ => none

/-- The inbound request: its HTTP method and its body.  `body = none` models
a request object whose `body` property is `undefined` (no parsed body). -/
structure Req where
  method : String
  body : Option JsonValue

/-- A response emitted through `res.status(s).json(b)`. -/
structure HttpResponse where
  status : Nat
  body : JsonValue

/-- Outcome of the one awaited `fetch` call.

* `fetchErr msg`: the call itself rejects (transport failure) with an error
  whose `message` is `msg`.
* `resp status rawBody jsonBody`: the provider answered with the given status;
  `rawBody` is what `response.text()` yields and `jsonBody` what
  `response.json()` yields (`.error msg` when the body is not parsable). -/
inductive FetchOutcome where
  | fetchErr (msg : String)
  | resp (status : Nat) (rawBody : String) (jsonBody : Except String JsonValue)

/-- What an invocation of the handler does at its boundary: either it emits a
response, or an exception escapes it (an unhandled fault). -/
inductive HandlerResult where
  | response (r : HttpResponse)
  | thrown (msg : String)

/-- Whether `Response.ok` holds: status in the inclusive range 200..299. -/
def respOk (status : Nat) : Bool :=
  200 ≤ status && status ≤ 299

/-- The `{error: msg}` JSON body used by every error response. -/
def errorJson (msg : String) : JsonValue :=
  .obj [("error", .str msg)]

/-- Truthiness of the key: `!apiKey` is false exactly when the variable is set to a non-empty
string (`process.env` values are strings; an unset variable is `undefined`). -/
def truthyKey : Option String → Bool
  | none => false
  | some s => s ≠ ""

/-- Payload construction (source lines 36-48): always the single content part;
`tools` appended only when `useGrounding` is truthy; `systemInstruction`
appended only when `systemPrompt` is truthy. -/
def buildPayload (userQuery : JsonValue) (systemPrompt useGrounding : Option JsonValue) :
    JsonValue :=
  let base := [("contents",
    JsonValue.arr [.obj [("parts", .arr [.obj [("text", userQuery)]])]])]
  let withTools :=
    if truthyOpt useGrounding then
      base ++ [("tools", JsonValue.arr [.obj [("google_search", .obj [])]])]
    else base
  let withSys :=
    if truthyOpt systemPrompt then
      withTools ++ [("systemInstruction",
        JsonValue.obj [("parts", .arr [.obj [("text", systemPrompt.getD .null)]])])]
    else withTools
  .obj withSys

/-- The first candidate, `result.candidates?.[0]` (source line 69). -/
def candidateOf (result : JsonValue) : Option JsonValue :=
  (result.getField "candidates").bind (fun c => c.getIndex 0)

/-- The text part, `candidate.content?.parts?.[0]?.text`, read along an
optional chain. -/
def textOf (candidate : Option JsonValue) : Option JsonValue :=
  ((((candidate.bind (fun c => c.getField "content")).bind
      (fun c => c.getField "parts")).bind
      (fun p => p.getIndex 0)).bind
      (fun p => p.getField "text"))

/-- The pair `(attribution.web?.uri, attribution.web?.title)` for one
attribution, as the pair of possibly-`undefined` field values. -/
def attrFields (a : JsonValue) : Option JsonValue × Option JsonValue :=
  ((a.getField "web").bind (fun w => w.getField "uri"),
   (a.getField "web").bind (fun w => w.getField "title"))

/-- The `.map` callback evaluated over the attributions in order.  Accessing
`attribution.web` on a `null` element throws a TypeError (routed to the
handler's `catch`), modelled by the `.error` result. -/
def mapAttributions : List JsonValue → Except String (List (Option JsonValue × Option JsonValue))
  | [] => .ok []
  | a :: rest =>
    match a with
    | .null => .error "Cannot read properties of null (reading 'web')"
    | a =>
      match mapAttributions rest with
      | .error e => .error e
      | .ok ps => .ok (attrFields a :: ps)

/-- The object literal `{uri: ..., title: ...}` built by the `.map` callback,
for an entry that survives the filter (both components defined). -/
def mkSource (p : Option JsonValue × Option JsonValue) : JsonValue :=
  .obj [("uri", p.1.getD .null), ("title", p.2.getD .null)]

/-- The filter of source line 81: `source.uri && source.title`. -/
def completePair (p : Option JsonValue × Option JsonValue) : Bool :=
  truthyOpt p.1 && truthyOpt p.2

/-- Source lines 76-81: map each attribution to its `{uri, title}` pair, then
keep only the entries whose `uri` and `title` are both truthy. -/
def extractSources (attrs : List JsonValue) : Except String (List JsonValue) :=
  match mapAttributions attrs with
  | .error e => .error e
  | .ok ps => .ok ((ps.filter completePair).map mkSource)

/-- The grounding metadata, `candidate.groundingMetadata` (source line 74). -/
def gmOf (candidate : Option JsonValue) : Option JsonValue :=
  candidate.bind (fun c => c.getField "groundingMetadata")

/-- The attributions, `groundingMetadata.groundingAttributions` (source line 75). -/
def gaOf (candidate : Option JsonValue) : Option JsonValue :=
  (gmOf candidate).bind (fun g => g.getField "groundingAttributions")

/-- Source lines 73-82: `sources` is `[]` unless `groundingMetadata` and its
`groundingAttributions` are both truthy; `.map` over a truthy non-array value
throws a TypeError (routed to the `catch`). -/
def sourcesOf (candidate : Option JsonValue) : Except String (List JsonValue) :=
  if truthyOpt (gmOf candidate) && truthyOpt (gaOf candidate) then
    match (gaOf candidate).getD .null with
    | .arr attrs => extractSources attrs
    | _ => .error "groundingMetadata.groundingAttributions.map is not a function"
  else .ok []

/-- Source lines 68-90 (step 6): extract the data from the parsed success
body and build the response.  `result.candidates` on a `null` result throws a
TypeError, routed to the `catch` branch. -/
def handleResult (result : JsonValue) : HttpResponse :=
  match result with
  | .null =>
      ⟨500, errorJson "Server error: Cannot read properties of null (reading 'candidates')"⟩
  | result =>
    if truthyOpt (candidateOf result) && truthyOpt (textOf (candidateOf result)) then
      match sourcesOf (candidateOf result) with
      | .error msg => ⟨500, errorJson ("Server error: " ++ msg)⟩
      | .ok sources =>
          ⟨200, .obj [("text", (textOf (candidateOf result)).getD .null),
                      ("sources", .arr sources)]⟩
    else
      ⟨500, errorJson "The API returned an unexpected response."⟩

/-- Source lines 51-95: the `try` block around the provider call, together
with its `catch` branch (every throw inside becomes
`500 {error: "Server error: <message>"}`). -/
def tryBlock (fetchOutcome : FetchOutcome) : HttpResponse :=
  match fetchOutcome with
  | .fetchErr msg => ⟨500, errorJson ("Server error: " ++ msg)⟩
  | .resp status rawBody jsonBody =>
    if respOk status = false then
      ⟨status, errorJson ("Google API Error: " ++ rawBody)⟩
    else
      match jsonBody with
      | .error msg => ⟨500, errorJson ("Server error: " ++ msg)⟩
      | .ok result => handleResult result

/-- The relay handler (`src/api/gemini.js`, `handler`).  Parameters: the value
of the `GEMINI_API_KEY` environment variable (`none` when unset), the inbound
request, and the behaviour of the one outbound `fetch`.  Returns the boundary
outcome together with the outbound payload when the provider was called
(`none` when it never was). -/
def handler (geminiApiKey : Option String) (req : Req) (fetchOutcome : FetchOutcome) :
    HandlerResult × Option JsonValue :=
  -- 1. Only allow POST requests
  if req.method ≠ "POST" then
    (.response ⟨405, errorJson "Method Not Allowed"⟩, none)
  -- 2. Get the API key from environment variables
  else if truthyKey geminiApiKey = false then
    (.response ⟨500, errorJson "API key is not configured on the server."⟩, none)
  else
    -- 3. Destructure the request body (outside the try block: destructuring
    -- `undefined` or `null` throws, and nothing catches it here)
    match req.body with
    | none =>
        (.thrown "Cannot destructure property 'userQuery' of 'req.body' as it is undefined.",
         none)
    | some .null =>
        (.thrown "Cannot destructure property 'userQuery' of 'req.body' as it is null.",
         none)
    | some body =>
      if truthyOpt (body.getField "userQuery") = false then
        (.response ⟨400, errorJson "userQuery is required."⟩, none)
      else
        -- 4. Build the payload, 5./6. run the try block around the call
        (.response (tryBlock fetchOutcome),
         some (buildPayload ((body.getField "userQuery").getD .null)
           (body.getField "systemPrompt") (body.getField "useGrounding")))

/-- The `sources` sequence as the spec's words describe it: map each
grounding attribution's web citation to `{uri, title}`, preserving the
attributions' order, and drop any entry missing either field (a missing
field being one that is absent or falsy, as the filter of the source
reads it). -/
def specSources (attrs : List JsonValue) : List JsonValue :=
  ((attrs.map (fun a => ((a.getField "web").bind (fun w => w.getField "uri"),
                         (a.getField "web").bind (fun w => w.getField "title")))).filter
      (fun p => truthyOpt p.1 && truthyOpt p.2)).map
    (fun p => JsonValue.obj [("uri", p.1.getD .null), ("title", p.2.getD .null)])

/-! ## Supporting lemmas -/

lemma getD_truthy {o : Option JsonValue} (h : truthyOpt o = true) :
    (o.getD JsonValue.null).truthy = true := by
  cases o with
  | none => simp [truthyOpt] at h
  | some v => simpa [truthyOpt] using h

lemma some_getD {o : Option JsonValue} (h : truthyOpt o = true) :
    some (o.getD JsonValue.null) = o := by
  cases o with
  | none => simp [truthyOpt] at h
  | some v => rfl

lemma getField_truthy {v : JsonValue} {k : String} {w : JsonValue}
    (h : v.getField k = some w) : v.truthy = true := by
  cases v <;> simp_all [JsonValue.getField, JsonValue.truthy]

lemma truthy_candidate_of_textOf {c : Option JsonValue}
    (h : truthyOpt (textOf c) = true) : truthyOpt c = true := by
  cases c with
  | none => simp [textOf, truthyOpt] at h
  | some v => cases v <;> simp_all [textOf, JsonValue.getField, truthyOpt, JsonValue.truthy]

lemma mapAttributions_ok {attrs : List JsonValue}
    (h : ∀ a ∈ attrs, a ≠ JsonValue.null) :
    mapAttributions attrs = .ok (attrs.map attrFields) := by
  induction attrs with
  | nil => rfl
  | cons a rest ih =>
    have ha : a ≠ JsonValue.null := h a (List.mem_cons_self a rest)
    have hrest := ih (fun x hx => h x (List.mem_cons_of_mem a hx))
    cases a <;> simp_all [mapAttributions]

lemma extractSources_eq {attrs : List JsonValue}
    (h : ∀ a ∈ attrs, a ≠ JsonValue.null) :
    extractSources attrs =
      .ok (((attrs.map attrFields).filter completePair).map mkSource) := by
  unfold extractSources
  rw [mapAttributions_ok h]

lemma filter_map_eq {α β : Type} (f : α → β) (p : β → Bool) (l : List α) :
    (l.map f).filter p = (l.filter (fun a => p (f a))).map f := by
  induction l with
  | nil => rfl
  | cons a rest ih => by_cases hp : p (f a) <;> simp [hp, ih]

lemma mkSource_uri (p : Option JsonValue × Option JsonValue) :
    (mkSource p).getField "uri" = some (p.1.getD .null) := rfl

lemma mkSource_title (p : Option JsonValue × Option JsonValue) :
    (mkSource p).getField "title" = some (p.2.getD .null) := rfl

lemma mem_filtered_truthy {ps : List (Option JsonValue × Option JsonValue)}
    {s : JsonValue} (hs : s ∈ (ps.filter completePair).map mkSource) :
    truthyOpt (s.getField "uri") = true ∧ truthyOpt (s.getField "title") = true := by
  rcases List.mem_map.mp hs with ⟨p, hp, rfl⟩
  have hc : completePair p = true := (List.mem_filter.mp hp).2
  have hc2 : truthyOpt p.1 = true ∧ truthyOpt p.2 = true := by
    simpa [completePair, Bool.and_eq_true] using hc
  rcases hc2 with ⟨h1, h2⟩
  rw [mkSource_uri, mkSource_title]
  exact ⟨by simpa [truthyOpt] using getD_truthy h1,
         by simpa [truthyOpt] using getD_truthy h2⟩

lemma sourcesOf_ok_mem {c : Option JsonValue} {l : List JsonValue} {s : JsonValue}
    (h : sourcesOf c = .ok l) (hs : s ∈ l) :
    truthyOpt (s.getField "uri") = true ∧ truthyOpt (s.getField "title") = true := by
  unfold sourcesOf at h
  split at h
  · split at h
    · unfold extractSources at h
      rcases hmap : mapAttributions _ with e | ps
      · rw [hmap] at h; simp at h
      · rw [hmap] at h
        simp only [Except.ok.injEq] at h
        exact mem_filtered_truthy (h ▸ hs)
    · simp at h
  · simp only [Except.ok.injEq] at h
    subst h
    simp at hs

lemma handleResult_of_ne_null {result : JsonValue} (h : result ≠ JsonValue.null) :
    handleResult result =
      (if truthyOpt (candidateOf result) && truthyOpt (textOf (candidateOf result)) then
        match sourcesOf (candidateOf result) with
        | .error msg => ⟨500, errorJson ("Server error: " ++ msg)⟩
        | .ok sources =>
            ⟨200, .obj [("text", (textOf (candidateOf result)).getD .null),
                        ("sources", .arr sources)]⟩
      else ⟨500, errorJson "The API returned an unexpected response."⟩) := by
  cases result <;> first | exact absurd rfl h | rfl

lemma server_error_ne (msg : String) :
    "Server error: " ++ msg ≠ "The API returned an unexpected response." := by
  intro hEq
  have h2 : "Server error: ".data ++ msg.data =
      "The API returned an unexpected response.".data := by
    rw [← String.data_append]; exact congrArg String.data hEq
  have h3 : ("Server error: ".data ++ msg.data).take "Server error: ".data.length =
      "The API returned an unexpected response.".data.take "Server error: ".data.length := by
    rw [h2]
  rw [List.take_left] at h3
  exact absurd h3 (by decide)

lemma handler_valid {env : Option String} {req : Req} {b : JsonValue}
    (f : FetchOutcome)
    (hm : req.method = "POST") (hk : truthyKey env = true)
    (hb : req.body = some b) (hbn : b ≠ JsonValue.null)
    (hq : truthyOpt (b.getField "userQuery") = true) :
    handler env req f =
      (.response (tryBlock f),
       some (buildPayload ((b.getField "userQuery").getD .null)
         (b.getField "systemPrompt") (b.getField "useGrounding"))) := by
  obtain ⟨m, bo⟩ := req
  dsimp at hm hb
  subst hm hb
  cases b <;> simp_all [handler]

lemma tryBlock_ok {status : Nat} (raw : String) (jsonBody : Except String JsonValue)
    (hst : respOk status = true) :
    tryBlock (.resp status raw jsonBody) =
      (match jsonBody with
      | .error msg => ⟨500, errorJson ("Server error: " ++ msg)⟩
      | .ok result => handleResult result) := by
  simp [tryBlock, hst]

lemma handler_ok_json {env : Option String} {req : Req} {b result : JsonValue}
    {status : Nat} (raw : String)
    (hm : req.method = "POST") (hk : truthyKey env = true)
    (hb : req.body = some b) (hbn : b ≠ JsonValue.null)
    (hq : truthyOpt (b.getField "userQuery") = true)
    (hst : respOk status = true) :
    (handler env req (.resp status raw (.ok result))).1 =
      .response (handleResult result) := by
  rw [handler_valid _ hm hk hb hbn hq]
  simp [tryBlock, hst]

lemma buildPayload_tools (uq : JsonValue) (sp ug : Option JsonValue) :
    (buildPayload uq sp ug).getField "tools" =
      (if truthyOpt ug then some (.arr [.obj [("google_search", .obj [])]]) else none) := by
  cases hug : truthyOpt ug <;> cases hsp : truthyOpt sp <;>
    simp [buildPayload, hug, hsp, JsonValue.getField, List.find?]

lemma buildPayload_sys (uq : JsonValue) (sp ug : Option JsonValue) :
    (buildPayload uq sp ug).getField "systemInstruction" =
      (if truthyOpt sp then
        some (.obj [("parts", .arr [.obj [("text", sp.getD .null)]])])
      else none) := by
  cases hug : truthyOpt ug <;> cases hsp : truthyOpt sp <;>
    simp [buildPayload, hug, hsp, JsonValue.getField, List.find?]

lemma specSources_eq (attrs : List JsonValue) :
    specSources attrs = ((attrs.map attrFields).filter completePair).map mkSource := rfl

lemma sourcesOf_of_gm_none {c : Option JsonValue} (hgm : gmOf c = none) :
    sourcesOf c = .ok [] := by
  simp [sourcesOf, gaOf, hgm, truthyOpt]

lemma sourcesOf_of_ga_arr {c : Option JsonValue} {attrs : List JsonValue}
    (hga : gaOf c = some (.arr attrs)) :
    sourcesOf c = extractSources attrs := by
  have hpair : ∃ g, gmOf c = some g ∧ g.getField "groundingAttributions" = some (.arr attrs) :=
    Option.bind_eq_some.mp hga
  rcases hpair with ⟨g, hg1, hg2⟩
  have hgm_t : truthyOpt (gmOf c) = true := by
    rw [hg1]
    simpa [truthyOpt] using getField_truthy hg2
  have hga_t : truthyOpt (gaOf c) = true := by rw [hga]; rfl
  unfold sourcesOf
  rw [if_pos (by rw [hgm_t, hga_t]; rfl)]
  rw [hga]
  rfl

lemma handleResult_200_core {result : JsonValue} {r : HttpResponse}
    (hr : handleResult result = r) (h200 : r.status = 200)
    (hres : result ≠ JsonValue.null) :
    ∃ text sources, r.body = .obj [("text", text), ("sources", .arr sources)] ∧
      ∀ s ∈ sources, truthyOpt (s.getField "uri") = true ∧
        truthyOpt (s.getField "title") = true := by
  rw [handleResult_of_ne_null hres] at hr
  split at hr
  · rcases hso : sourcesOf (candidateOf result) with msg | l
    · rw [hso] at hr
      subst hr
      simp at h200
    · rw [hso] at hr
      subst hr
      refine ⟨(textOf (candidateOf result)).getD .null, l, rfl, ?_⟩
      intro s hs
      exact sourcesOf_ok_mem hso hs
  · subst hr
    simp at h200

lemma handleResult_200 {result : JsonValue} {r : HttpResponse}
    (hr : handleResult result = r) (h200 : r.status = 200) :
    ∃ text sources, r.body = .obj [("text", text), ("sources", .arr sources)] ∧
      ∀ s ∈ sources, truthyOpt (s.getField "uri") = true ∧
        truthyOpt (s.getField "title") = true := by
  cases result
  case null =>
    unfold handleResult at hr
    subst hr
    simp at h200
  all_goals exact handleResult_200_core hr h200 (fun h => nomatch h)

lemma tryBlock_200 {f : FetchOutcome} {r : HttpResponse}
    (hr : tryBlock f = r) (h200 : r.status = 200) :
    ∃ text sources, r.body = .obj [("text", text), ("sources", .arr sources)] ∧
      ∀ s ∈ sources, truthyOpt (s.getField "uri") = true ∧
        truthyOpt (s.getField "title") = true := by
  cases f with
  | fetchErr msg =>
    simp only [tryBlock] at hr
    subst hr
    simp at h200
  | resp status raw jsonBody =>
    simp only [tryBlock] at hr
    split at hr
    · rename_i hcond
      subst hr
      dsimp at h200
      subst h200
      simp [respOk] at hcond
    · split at hr
      · subst hr
        simp at h200
      · exact handleResult_200 hr h200

/-! ## Claim theorems -/

/-- C2: for every provider response with a non-success HTTP status, the
handler responds with exactly the provider's status code and body
`{error: "Google API Error: <raw body text>"}`, the raw body relayed
untransformed. -/
theorem C2_error_relay (env : Option String) (req : Req) (b : JsonValue)
    (status : Nat) (raw : String) (jsonBody : Except String JsonValue)
    (hm : req.method = "POST") (hk : truthyKey env = true)
    (hb : req.body = some b) (hbn : b ≠ JsonValue.null)
    (hq : truthyOpt (b.getField "userQuery") = true)
    (hst : respOk status = false) :
    (handler env req (.resp status raw jsonBody)).1 =
      .response ⟨status, errorJson ("Google API Error: " ++ raw)⟩ := by
  rw [handler_valid _ hm hk hb hbn hq]
  simp [tryBlock, hst]

/-- Witness for C2: a provider 429 with body "rate limited" yields 429 with
`{error: "Google API Error: rate limited"}`. -/
theorem C2_error_relay_witness :
    (handler (some "key") ⟨"POST", some (.obj [("userQuery", .str "q")])⟩
        (.resp 429 "rate limited" (.error "no json"))).1 =
      .response ⟨429, errorJson "Google API Error: rate limited"⟩ :=
  C2_error_relay (some "key") ⟨"POST", some (.obj [("userQuery", .str "q")])⟩
    (.obj [("userQuery", .str "q")]) 429 "rate limited" (.error "no json")
    rfl rfl rfl (fun h => nomatch h) rfl rfl

/-- C3 — the code violates the claim: a POST request with a configured key
whose body is absent (`undefined`) makes the destructuring on source line 28
throw a TypeError outside the `try` block, so the fault escapes the handler
instead of being converted to a JSON error response. -/
theorem C3_undefined_body_throws :
    handler (some "key") ⟨"POST", none⟩ (.resp 200 "" (.ok (.obj []))) =
      (.thrown "Cannot destructure property 'userQuery' of 'req.body' as it is undefined.",
       none) := rfl

/-- C7: validation is performed in the short-circuiting order
method → configuration → required field; a request failing an earlier check
gets that check's response regardless of later failures, and on any
validation failure the provider is never called (no payload is recorded). -/
theorem C7_validation_order (env : Option String) (req : Req) (f : FetchOutcome) :
    (req.method ≠ "POST" →
      handler env req f = (.response ⟨405, errorJson "Method Not Allowed"⟩, none))
    ∧ (req.method = "POST" → truthyKey env = false →
      handler env req f =
        (.response ⟨500, errorJson "API key is not configured on the server."⟩, none))
    ∧ (∀ b, req.method = "POST" → truthyKey env = true → req.body = some b →
        b ≠ JsonValue.null → truthyOpt (b.getField "userQuery") = false →
        handler env req f =
          (.response ⟨400, errorJson "userQuery is required."⟩, none)) := by
  obtain ⟨m, bo⟩ := req
  refine ⟨fun hm => ?_, fun hm hk => ?_, fun b hm hk hb hbn hq => ?_⟩
  · simp only at hm
    simp [handler, hm]
  · simp only at hm
    subst hm
    simp [handler, hk]
  · simp only at hm hb
    subst hm hb
    cases b <;> simp_all [handler]

/-- Witness for C7: a non-POST request with no configured key and no
`userQuery` is answered by the earliest check: 405 Method Not Allowed, and
the provider is never called. -/
theorem C7_validation_order_witness :
    handler none ⟨"GET", none⟩ (.fetchErr "boom") =
      (.response ⟨405, errorJson "Method Not Allowed"⟩, none) :=
  (C7_validation_order none ⟨"GET", none⟩ (.fetchErr "boom")).1 (by decide)

/-- C10: when `GEMINI_API_KEY` is set to the empty string, `!apiKey` holds
just as when it is unset: every POST request gets 500 with the configuration
error and the provider is never called. -/
theorem C10_empty_key_unconfigured (req : Req) (f : FetchOutcome)
    (hm : req.method = "POST") :
    handler (some "") req f =
      (.response ⟨500, errorJson "API key is not configured on the server."⟩, none) := by
  obtain ⟨m, bo⟩ := req
  simp only at hm
  subst hm
  simp [handler, truthyKey]

/-- Witness for C10 at a concrete POST request with a valid body. -/
theorem C10_empty_key_unconfigured_witness :
    handler (some "") ⟨"POST", some (.obj [("userQuery", .str "hi")])⟩ (.fetchErr "boom") =
      (.response ⟨500, errorJson "API key is not configured on the server."⟩, none) :=
  C10_empty_key_unconfigured ⟨"POST", some (.obj [("userQuery", .str "hi")])⟩
    (.fetchErr "boom") rfl

/-- C8: for every valid inbound request the outbound payload has a `tools`
key iff `useGrounding` is truthy (then holding exactly one search-tool
marker), and a `systemInstruction` key iff `systemPrompt` is truthy (then
with `systemInstruction.parts[0].text` equal to `systemPrompt`); falsy or
absent inbound fields leave the corresponding keys absent entirely. -/
theorem C8_payload_shape (env : Option String) (req : Req) (b : JsonValue)
    (f : FetchOutcome)
    (hm : req.method = "POST") (hk : truthyKey env = true)
    (hb : req.body = some b) (hbn : b ≠ JsonValue.null)
    (hq : truthyOpt (b.getField "userQuery") = true) :
    (handler env req f).2 =
      some (buildPayload ((b.getField "userQuery").getD .null)
        (b.getField "systemPrompt") (b.getField "useGrounding"))
    ∧ (∀ uq : JsonValue, ∀ sp ug : Option JsonValue,
        ((buildPayload uq sp ug).getField "tools" ≠ none ↔ truthyOpt ug = true)
        ∧ (truthyOpt ug = true →
            (buildPayload uq sp ug).getField "tools" =
              some (.arr [.obj [("google_search", .obj [])]]))
        ∧ ((buildPayload uq sp ug).getField "systemInstruction" ≠ none ↔
            truthyOpt sp = true)
        ∧ (truthyOpt sp = true →
            ((((buildPayload uq sp ug).getField "systemInstruction").bind
                (fun s => s.getField "parts")).bind
                (fun p => p.getIndex 0)).bind (fun p => p.getField "text") = sp)) := by
  constructor
  · rw [handler_valid f hm hk hb hbn hq]
  · intro uq sp ug
    refine ⟨?_, fun hugt => ?_, ?_, fun hspt => ?_⟩
    · rw [buildPayload_tools]
      cases hug : truthyOpt ug <;> simp
    · rw [buildPayload_tools, if_pos hugt]
    · rw [buildPayload_sys]
      cases hsp : truthyOpt sp <;> simp
    · rw [buildPayload_sys, if_pos hspt]
      show some (sp.getD .null) = sp
      exact some_getD hspt

/-- Witness for C8: `userQuery="hello"`, `systemPrompt="Be concise"`,
`useGrounding=true` produce the payload with the single search-tool marker
and the system-instruction block. -/
theorem C8_payload_shape_witness :
    (handler (some "key")
      ⟨"POST", some (.obj [("userQuery", .str "hello"),
                           ("systemPrompt", .str "Be concise"),
                           ("useGrounding", .bool true)])⟩ (.fetchErr "boom")).2 =
      some (.obj [("contents", .arr [.obj [("parts", .arr [.obj [("text", .str "hello")]])]]),
                  ("tools", .arr [.obj [("google_search", .obj [])]]),
                  ("systemInstruction",
                   .obj [("parts", .arr [.obj [("text", .str "Be concise")]])])]) :=
  ((C8_payload_shape (some "key")
      ⟨"POST", some (.obj [("userQuery", .str "hello"),
                           ("systemPrompt", .str "Be concise"),
                           ("useGrounding", .bool true)])⟩
      (.obj [("userQuery", .str "hello"), ("systemPrompt", .str "Be concise"),
             ("useGrounding", .bool true)])
      (.fetchErr "boom") rfl rfl rfl (fun h => nomatch h) rfl).1).trans rfl

/-- Counterexample to C1 as stated: the provider returns 2xx and the
structural path `candidates[0].content.parts[0].text` is present — its value
is the empty string — yet the handler does not respond 200: it signals the
"unexpected response" 500 error, because the code tests truthiness, not
presence. -/
theorem C1_counterexample :
    textOf (candidateOf (.obj [("candidates", .arr [.obj [("content",
        .obj [("parts", .arr [.obj [("text", .str "")]])])]])])) = some (.str "")
    ∧ (handler (some "key") ⟨"POST", some (.obj [("userQuery", .str "q")])⟩
        (.resp 200 "raw" (.ok (.obj [("candidates", .arr [.obj [("content",
          .obj [("parts", .arr [.obj [("text", .str "")]])])]])])))).1 =
      .response ⟨500, errorJson "The API returned an unexpected response."⟩ :=
  ⟨rfl, rfl⟩

/-- C1 (amended): for every 2xx provider response with a parsed, non-null
JSON body, the handler responds 200 with `{text, sources}` — `text` being the
value at `candidates[0].content.parts[0].text` — whenever that value is
truthy and source extraction does not itself throw; and the "unexpected
response" 500 error is signalled if and only if the value at that path is
absent or falsy (e.g. an empty string), not merely absent. -/
theorem C1_success_text (env : Option String) (req : Req) (b result : JsonValue)
    (status : Nat) (raw : String)
    (hm : req.method = "POST") (hk : truthyKey env = true)
    (hb : req.body = some b) (hbn : b ≠ JsonValue.null)
    (hq : truthyOpt (b.getField "userQuery") = true)
    (hst : respOk status = true) (hres : result ≠ JsonValue.null) :
    (truthyOpt (textOf (candidateOf result)) = false →
      (handler env req (.resp status raw (.ok result))).1 =
        .response ⟨500, errorJson "The API returned an unexpected response."⟩)
    ∧ (∀ l, truthyOpt (textOf (candidateOf result)) = true →
        sourcesOf (candidateOf result) = .ok l →
        (handler env req (.resp status raw (.ok result))).1 =
          .response ⟨200, .obj [("text", (textOf (candidateOf result)).getD .null),
                                ("sources", .arr l)]⟩)
    ∧ ((handler env req (.resp status raw (.ok result))).1 =
        .response ⟨500, errorJson "The API returned an unexpected response."⟩ →
      truthyOpt (textOf (candidateOf result)) = false) := by
  have hH : (handler env req (.resp status raw (.ok result))).1 =
      .response (handleResult result) := handler_ok_json raw hm hk hb hbn hq hst
  refine ⟨fun ht => ?_, fun l ht hsrc => ?_, fun hresp => ?_⟩
  · rw [hH, handleResult_of_ne_null hres]
    simp [ht]
  · have hc : truthyOpt (candidateOf result) = true := truthy_candidate_of_textOf ht
    rw [hH, handleResult_of_ne_null hres]
    simp [ht, hc, hsrc]
  · cases hx : truthyOpt (textOf (candidateOf result)) with
    | false => rfl
    | true =>
      exfalso
      have hc := truthy_candidate_of_textOf hx
      rw [hH, handleResult_of_ne_null hres] at hresp
      rw [if_pos (by simp [hx, hc])] at hresp
      rcases hso : sourcesOf (candidateOf result) with msg | l
      · rw [hso] at hresp
        simp only [HandlerResult.response.injEq, HttpResponse.mk.injEq, errorJson,
          JsonValue.obj.injEq, List.cons.injEq, Prod.mk.injEq, JsonValue.str.injEq,
          true_and, and_true] at hresp
        exact server_error_ne msg hresp
      · rw [hso] at hresp
        simp at hresp

/-- Witness for C1 (amended): the spec's success scenario — 2xx body with
`candidates[0].content.parts[0].text = "Paris"` and no grounding metadata —
yields `{text: "Paris", sources: []}`. -/
theorem C1_success_text_witness :
    (handler (some "key") ⟨"POST", some (.obj [("userQuery", .str "q")])⟩
        (.resp 200 "raw" (.ok (.obj [("candidates", .arr [.obj [("content",
          .obj [("parts", .arr [.obj [("text", .str "Paris")]])])]])])))).1 =
      .response ⟨200, .obj [("text", .str "Paris"), ("sources", .arr [])]⟩ :=
  ((C1_success_text (some "key") ⟨"POST", some (.obj [("userQuery", .str "q")])⟩
      (.obj [("userQuery", .str "q")])
      (.obj [("candidates", .arr [.obj [("content",
        .obj [("parts", .arr [.obj [("text", .str "Paris")]])])]])])
      200 "raw" rfl rfl rfl (fun h => nomatch h) rfl rfl
      (fun h => nomatch h)).2.1 [] rfl rfl).trans rfl

/-- Counterexample to C4 as stated: a grounding attribution with a URI but no
title is not retained — the emitted `sources` is empty, because the filter
requires both fields to be truthy. -/
theorem C4_counterexample :
    (handler (some "key") ⟨"POST", some (.obj [("userQuery", .str "q")])⟩
        (.resp 200 "raw" (.ok (.obj [("candidates", .arr [.obj [
          ("content", .obj [("parts", .arr [.obj [("text", .str "t")]])]),
          ("groundingMetadata", .obj [("groundingAttributions", .arr [
            .obj [("web", .obj [("uri", .str "http://y")])]])])]])])))).1 =
      .response ⟨200, .obj [("text", .str "t"), ("sources", .arr [])]⟩ := rfl

/-- C4 (amended): a grounding entry is retained in `sources` iff both its
URI and its title are present and truthy; an entry lacking either one — in
particular one with a URI but no title — is filtered out. -/
theorem C4_retention (attrs : List JsonValue)
    (h : ∀ a ∈ attrs, a ≠ JsonValue.null) :
    extractSources attrs =
      .ok ((attrs.filter (fun a => completePair (attrFields a))).map
        (fun a => mkSource (attrFields a))) := by
  rw [extractSources_eq h, filter_map_eq, List.map_map]
  rfl

/-- Witness for C4 (amended): of one complete attribution and one with only
a URI, only the complete one is retained. -/
theorem C4_retention_witness :
    extractSources
        [.obj [("web", .obj [("uri", .str "http://x"), ("title", .str "X")])],
         .obj [("web", .obj [("uri", .str "http://y")])]] =
      .ok [.obj [("uri", .str "http://x"), ("title", .str "X")]] :=
  (C4_retention
    [.obj [("web", .obj [("uri", .str "http://x"), ("title", .str "X")])],
     .obj [("web", .obj [("uri", .str "http://y")])]]
    (by
      intro a ha
      simp only [List.mem_cons, List.not_mem_nil, or_false] at ha
      rcases ha with rfl | rfl <;> exact fun hcontra => nomatch hcontra)).trans rfl

/-- C5: for every successful provider response with truthy extracted text,
when grounding metadata is absent `sources` is the empty sequence (present in
the response, not omitted); when the grounding attributions form an array of
(non-null) entries, each attribution's web citation is mapped to
`{uri, title}` preserving the attributions' order and any entry missing
either field is dropped (`specSources`). -/
theorem C5_grounding_sources (env : Option String) (req : Req) (b result : JsonValue)
    (status : Nat) (raw : String)
    (hm : req.method = "POST") (hk : truthyKey env = true)
    (hb : req.body = some b) (hbn : b ≠ JsonValue.null)
    (hq : truthyOpt (b.getField "userQuery") = true)
    (hst : respOk status = true) (hres : result ≠ JsonValue.null)
    (ht : truthyOpt (textOf (candidateOf result)) = true) :
    (gmOf (candidateOf result) = none →
      (handler env req (.resp status raw (.ok result))).1 =
        .response ⟨200, .obj [("text", (textOf (candidateOf result)).getD .null),
                              ("sources", .arr [])]⟩)
    ∧ (∀ attrs, gaOf (candidateOf result) = some (.arr attrs) →
        (∀ a ∈ attrs, a ≠ JsonValue.null) →
        (handler env req (.resp status raw (.ok result))).1 =
          .response ⟨200, .obj [("text", (textOf (candidateOf result)).getD .null),
                                ("sources", .arr (specSources attrs))]⟩) := by
  have hH : (handler env req (.resp status raw (.ok result))).1 =
      .response (handleResult result) := handler_ok_json raw hm hk hb hbn hq hst
  have hc : truthyOpt (candidateOf result) = true := truthy_candidate_of_textOf ht
  constructor
  · intro hgm
    rw [hH, handleResult_of_ne_null hres]
    simp [ht, hc, sourcesOf_of_gm_none hgm]
  · intro attrs hga hnn
    have hs : sourcesOf (candidateOf result) = .ok (specSources attrs) := by
      rw [sourcesOf_of_ga_arr hga, extractSources_eq hnn, specSources_eq]
    rw [hH, handleResult_of_ne_null hres]
    simp [ht, hc, hs]

/-- Witness for C5: one complete attribution `{web: {uri: "http://x",
title: "X"}}` and one incomplete `{web: {uri: "http://y"}}` — `sources`
contains only the first. -/
theorem C5_grounding_sources_witness :
    (handler (some "key") ⟨"POST", some (.obj [("userQuery", .str "q")])⟩
        (.resp 200 "raw" (.ok (.obj [("candidates", .arr [.obj [
          ("content", .obj [("parts", .arr [.obj [("text", .str "t")]])]),
          ("groundingMetadata", .obj [("groundingAttributions", .arr [
            .obj [("web", .obj [("uri", .str "http://x"), ("title", .str "X")])],
            .obj [("web", .obj [("uri", .str "http://y")])]])])]])])))).1 =
      .response ⟨200, .obj [("text", .str "t"),
        ("sources", .arr [.obj [("uri", .str "http://x"), ("title", .str "X")]])]⟩ :=
  ((C5_grounding_sources (some "key") ⟨"POST", some (.obj [("userQuery", .str "q")])⟩
      (.obj [("userQuery", .str "q")])
      (.obj [("candidates", .arr [.obj [
        ("content", .obj [("parts", .arr [.obj [("text", .str "t")]])]),
        ("groundingMetadata", .obj [("groundingAttributions", .arr [
          .obj [("web", .obj [("uri", .str "http://x"), ("title", .str "X")])],
          .obj [("web", .obj [("uri", .str "http://y")])]])])]])])
      200 "raw" rfl rfl rfl (fun h => nomatch h) rfl rfl
      (fun h => nomatch h) rfl).2
    [.obj [("web", .obj [("uri", .str "http://x"), ("title", .str "X")])],
     .obj [("web", .obj [("uri", .str "http://y")])]]
    rfl
    (by
      intro a ha
      simp only [List.mem_cons, List.not_mem_nil, or_false] at ha
      rcases ha with rfl | rfl <;> exact fun hcontra => nomatch hcontra)).trans rfl

/-- Counterexample to C6 as stated: a 2xx provider response whose body is not
parsable as JSON makes `googleResponse.json()` reject inside the `try` block,
so the handler responds 500 with `{error: "Server error: <message>"}` — not
with `{error: "The API returned an unexpected response."}`. -/
theorem C6_counterexample :
    (handler (some "key") ⟨"POST", some (.obj [("userQuery", .str "q")])⟩
        (.resp 200 "not json" (.error "Unexpected token"))).1 =
      .response ⟨500, errorJson "Server error: Unexpected token"⟩
    ∧ errorJson "Server error: Unexpected token" ≠
        errorJson "The API returned an unexpected response." :=
  ⟨rfl, by simp [errorJson]⟩

/-- C6 (amended): for every 2xx provider response, when the body parses to a
non-null JSON value in which the expected text path is absent or falsy the
handler responds 500 with exactly
`{error: "The API returned an unexpected response."}`; when the body is not
parsable as JSON it responds 500 with
`{error: "Server error: <parse error message>"}`. -/
theorem C6_unexpected_response (env : Option String) (req : Req) (b : JsonValue)
    (status : Nat) (raw : String)
    (hm : req.method = "POST") (hk : truthyKey env = true)
    (hb : req.body = some b) (hbn : b ≠ JsonValue.null)
    (hq : truthyOpt (b.getField "userQuery") = true)
    (hst : respOk status = true) :
    (∀ result, result ≠ JsonValue.null →
      truthyOpt (textOf (candidateOf result)) = false →
      (handler env req (.resp status raw (.ok result))).1 =
        .response ⟨500, errorJson "The API returned an unexpected response."⟩)
    ∧ (∀ msg, (handler env req (.resp status raw (.error msg))).1 =
        .response ⟨500, errorJson ("Server error: " ++ msg)⟩) := by
  constructor
  · intro result hres ht
    rw [handler_ok_json raw hm hk hb hbn hq hst, handleResult_of_ne_null hres]
    simp [ht]
  · intro msg
    rw [handler_valid _ hm hk hb hbn hq]
    simp [tryBlock, hst]

/-- Witness for C6 (amended): a 2xx body parsed as `{}` (missing `candidates`
entirely) yields 500 with the fixed unexpected-response error. -/
theorem C6_unexpected_response_witness :
    (handler (some "key") ⟨"POST", some (.obj [("userQuery", .str "q")])⟩
        (.resp 200 "{}" (.ok (.obj [])))).1 =
      .response ⟨500, errorJson "The API returned an unexpected response."⟩ :=
  (C6_unexpected_response (some "key") ⟨"POST", some (.obj [("userQuery", .str "q")])⟩
      (.obj [("userQuery", .str "q")]) 200 "{}" rfl rfl rfl
      (fun h => nomatch h) rfl rfl).1
    (.obj []) (fun h => nomatch h) rfl

/-- C9: every 200 response emitted by the handler has body
`{text, sources}` in which every element of `sources` has both a truthy
(non-empty) `uri` and a truthy (non-empty) `title`. -/
theorem C9_sources_invariant (env : Option String) (req : Req) (f : FetchOutcome)
    (r : HttpResponse) (hr : (handler env req f).1 = .response r)
    (h200 : r.status = 200) :
    ∃ text sources, r.body = .obj [("text", text), ("sources", .arr sources)] ∧
      ∀ s ∈ sources, truthyOpt (s.getField "uri") = true ∧
        truthyOpt (s.getField "title") = true := by
  unfold handler at hr
  split at hr
  · simp at hr
    subst hr
    simp at h200
  · split at hr
    · simp at hr
      subst hr
      simp at h200
    · split at hr
      · simp at hr
      · simp at hr
      · split at hr
        · simp at hr
          subst hr
          simp at h200
        · simp at hr
          exact tryBlock_200 hr h200

/-- Witness for C9 at a concrete grounded success response. -/
theorem C9_sources_invariant_witness :
    ∃ text sources,
      (HttpResponse.mk 200 (.obj [("text", JsonValue.str "t"), ("sources", .arr
        [.obj [("uri", .str "http://x"), ("title", .str "X")]])])).body =
        .obj [("text", text), ("sources", .arr sources)] ∧
      ∀ s ∈ sources, truthyOpt (s.getField "uri") = true ∧
        truthyOpt (s.getField "title") = true :=
  C9_sources_invariant (some "key") ⟨"POST", some (.obj [("userQuery", .str "q")])⟩
    (.resp 200 "raw" (.ok (.obj [("candidates", .arr [.obj [
      ("content", .obj [("parts", .arr [.obj [("text", .str "t")]])]),
      ("groundingMetadata", .obj [("groundingAttributions", .arr [
        .obj [("web", .obj [("uri", .str "http://x"), ("title", .str "X")])]])])]])])))
    (HttpResponse.mk 200 (.obj [("text", JsonValue.str "t"), ("sources", .arr
      [.obj [("uri", .str "http://x"), ("title", .str "X")]])]))
    rfl rfl
